import Mathlib

/-!
Verification of the funding-arb-bot monitor against its specification.

The repository's provided sources are `exchange.py`, `exit_monitor.py` and
`main.py`.  The two functions the claims cite are:

  * `Exchange.close_hedged_position(symbol)` (exchange.py lines 24-27):
    its body is one `logging.info(f"Executing exit for {symbol}")` call;
    it touches no other state and falls off the end, returning `None`.
  * `ExitMonitor._tick()` (exit_monitor.py lines 19-21): its body is one
    `logging.info("Checking trades for exit conditions...")` call and it
    returns `None`.
  * `ExitMonitor.run_forever()` (exit_monitor.py lines 11-17):
    `while True: try: await self._tick() except Exception as e:
    logging.error(f"Error in monitor tick: {e}"); await asyncio.sleep(60)`.

We embed these as pure functions producing traces of observable events.
Spec-side definitions (data model, exit rules, configuration, ledger) are
clearly marked: they follow the specification's words and exist to be
compared with the code, or, for the ledger, to model a component whose
implementation is not among the provided source files.
-/

namespace FundingArbBot

/-- Observable effects of the embedded Python code: log lines, file reads,
persistence of a position record, venue order submissions, venue queries,
an invocation of `Exchange.close_hedged_position`, and sleeps. -/
inductive Event where
  | logInfo (msg : String)
  | logError (msg : String)
  | readFile (path : String)
  | persistRecord (note : String)
  | orderSubmit (venue : String) (symbol : String)
  | venueQuery (venue : String) (symbol : String)
  | invokeClose (symbol : String)
  | sleepFor (seconds : Nat)
  deriving DecidableEq, Repr

/-- `true` exactly on `Event.orderSubmit` events. -/
def isOrderSubmit : Event → Bool
  | Event.orderSubmit _ _ => true
  | _ => false

/-- `true` on an `Event.orderSubmit` aimed at the given venue. -/
def isOrderSubmitTo (venue : String) : Event → Bool
  | Event.orderSubmit v _ => v == venue
  | _ => false

/-- `true` exactly on `Event.persistRecord` events. -/
def isPersistRecord : Event → Bool
  | Event.persistRecord _ => true
  | _ => false

/-- `true` on venue-facing calls: order submissions and venue queries. -/
def isVenueCall : Event → Bool
  | Event.orderSubmit _ _ => true
  | Event.venueQuery _ _ => true
  | _ => false

/-- `true` exactly on `Event.readFile` events. -/
def isReadFile : Event → Bool
  | Event.readFile _ => true
  | _ => false

/-- `true` exactly on `Event.invokeClose` events. -/
def isInvokeClose : Event → Bool
  | Event.invokeClose _ => true
  | _ => false

/-- Modelled from the spec (section 3): per-leg close status
`PENDING`, `CONFIRMED`, `FAILED`.  The data model is described in the
specification; no source file of the provided set defines it. -/
inductive LegStatus where
  | PENDING
  | CONFIRMED
  | FAILED
  deriving DecidableEq, Repr

/-- Modelled from the spec (section 3): position lifecycle states.
`CLOSE_FAILED` here renders the spec's `CLOSE_FAILED_PARTIAL` state. -/
inductive PositionState where
  | OPEN
  | CLOSING
  | CLOSED
  | CLOSE_FAILED
  deriving DecidableEq, Repr

/-- Modelled from the spec (section 4.2): `UnwindResult`.  `INCOMPLETE`
here renders the spec's `PARTIAL` result. -/
inductive UnwindResult where
  | CLOSED
  | INCOMPLETE
  deriving DecidableEq, Repr

/-- Modelled from the spec (section 4.1): `ExitDecision`. -/
inductive ExitDecision where
  | NONE
  | TIME_EXIT
  | FUNDING_FLIP_EXIT
  deriving DecidableEq, Repr

/-- Modelled from the spec (section 3): a `HedgePosition` record.  The
two legs' close statuses are kept as two fields (venue A and venue B). -/
structure HedgePosition where
  symbol : String
  venueA : String
  venueB : String
  openedAt : Nat
  entryFundingBias : Int
  state : PositionState
  legCloseStatusA : LegStatus
  legCloseStatusB : LegStatus
  deriving DecidableEq, Repr

/-- Embedding of `Exchange.close_hedged_position` (exchange.py lines
24-27).  The body is a single `logging.info` call; the function mutates
nothing and has no `return` statement, so it returns `None` (typed here
as `Option UnwindResult`, the result type the spec assigns to an unwind).
The ambient program state (whatever positions or ledger exist) is
threaded through unchanged, as the function reads and writes none of it. -/
def closeHedgedPosition (σ : Type) (st : σ) (symbol : String) :
    σ × List Event × Option UnwindResult :=
  (st, [Event.logInfo ("Executing exit for " ++ symbol)], none)

/-- Embedding of `ExitMonitor._tick` (exit_monitor.py lines 19-21).  The
body is a single `logging.info` call and the function returns `None`
(typed as `Option ExitDecision`, the spec's decision type): no file is
read, no position is examined, no exit is decided. -/
def tick : List Event × Option ExitDecision :=
  ([Event.logInfo "Checking trades for exit conditions..."], none)

/-- Outcome of the awaited `self._tick()` call inside `run_forever`'s
`try`: either it returns normally or it raises an exception (anything
`except Exception` catches), having emitted some events first. -/
inductive TickOutcome where
  | ok (events : List Event)
  | raised (events : List Event) (msg : String)
  deriving DecidableEq, Repr

/-- What the loop does after one iteration: proceed to the next
iteration, or let an exception propagate out of the loop. -/
inductive LoopControl where
  | next
  | propagate (msg : String)
  deriving DecidableEq, Repr

/-- The sleep duration in `run_forever`: the literal `60` of
`await asyncio.sleep(60)` (exit_monitor.py line 17). -/
def runForeverSleepSeconds : Nat := 60

/-- Embedding of one iteration of `ExitMonitor.run_forever`
(exit_monitor.py lines 12-17), with the awaited tick's outcome as input:
`try` runs the tick; `except Exception as e` catches any exception the
tick raised and logs `"Error in monitor tick: " ++ e`; in either case
control falls through to `await asyncio.sleep(60)` and the `while True`
loop continues.  Nothing in the body re-raises, so the control outcome
is always `LoopControl.next`. -/
def runForeverIteration : TickOutcome → List Event × LoopControl
  | TickOutcome.ok evs =>
      (evs ++ [Event.sleepFor runForeverSleepSeconds], LoopControl.next)
  | TickOutcome.raised evs msg =>
      (evs ++ [Event.logError ("Error in monitor tick: " ++ msg),
               Event.sleepFor runForeverSleepSeconds], LoopControl.next)

/-- One iteration of `run_forever` on the actual `_tick` of the source,
which only logs and never raises. -/
def runForeverIterationActual : List Event × LoopControl :=
  runForeverIteration (TickOutcome.ok tick.1)

/-- Follows the spec's words (section 6): the recognized configuration
options relevant to the loop period.  The source's monitor reads no
configuration; this type exists to state the claim that it should. -/
structure SpecConfiguration where
  tickIntervalSeconds : Nat
  deriving DecidableEq, Repr

/-- The sleep duration of `run_forever` viewed as a function of the
spec's configuration: the source reads no configuration at all, so as a
function of the configuration it is the constant `60`. -/
def runForeverSleepGiven (_cfg : SpecConfiguration) : Nat :=
  runForeverSleepSeconds

/-- Follows the spec's words (sections 4.1 and 8): the time-exit rule,
`TIME_EXIT` fires iff `now - openedAt >= holdingWindow`, with the
boundary counting as triggered. -/
def specTimeExitFires (openedAt now holdingWindow : Nat) : Bool :=
  holdingWindow ≤ now - openedAt

/-- Follows the spec's words (sections 4.1 and 8): the funding-flip rule
on two consecutive observed funding-bias signs: it fires iff both
consecutive observations differ from the entry funding bias. -/
def specFundingFlipFires (entryBias obs1 obs2 : Int) : Bool :=
  decide (obs1 ≠ entryBias) && decide (obs2 ≠ entryBias)

/-- Modelled from the spec (section 4.4): the `HedgeLedger` keeps a
mapping from the unique position identifier (the symbol) to the record;
`save` is an upsert replacing the whole record; the ledger's
implementation is not among the provided source files (only the
trades-file path declared in `ExitMonitor.__init__` points at it). -/
def saveLedger : List HedgePosition → HedgePosition → List HedgePosition
  | [], p => [p]
  | q :: rest, p =>
      if q.symbol == p.symbol then p :: rest else q :: saveLedger rest p

/-- Modelled from the spec (section 4.4): `load` returns the persisted
set of records; a successful `save` is durable, so `load` after `save`
sees exactly the saved state. -/
def loadLedger (l : List HedgePosition) : List HedgePosition := l

/-- Look a position up in the ledger by its unique identifier. -/
def lookupLedger (l : List HedgePosition) (s : String) : Option HedgePosition :=
  l.find? (fun q => q.symbol == s)

/-- A sample open position used as a concrete input. -/
def samplePosition : HedgePosition :=
  { symbol := "BTCUSDT", venueA := "binance", venueB := "bybit",
    openedAt := 0, entryFundingBias := 1, state := PositionState.OPEN,
    legCloseStatusA := LegStatus.PENDING, legCloseStatusB := LegStatus.PENDING }

/-- A sample fully closed position used as a concrete input. -/
def closedPosition : HedgePosition :=
  { symbol := "ETHUSDT", venueA := "binance", venueB := "bybit",
    openedAt := 5, entryFundingBias := -1, state := PositionState.CLOSED,
    legCloseStatusA := LegStatus.CONFIRMED, legCloseStatusB := LegStatus.CONFIRMED }

/-- Claim C1: the claim says an unwind ending with one leg `CONFIRMED`
and the other `FAILED` sets the position to the partial-failure state and
returns `PARTIAL`.  Evaluating the code on a concrete open position shows
the stub changes no position state, never reaches any leg outcome, and
returns `None` — the partial-failure handling does not exist. -/
theorem close_stub_no_partial_failure_state :
    closeHedgedPosition (List HedgePosition) [samplePosition] "BTCUSDT" =
      ([samplePosition], [Event.logInfo ("Executing exit for " ++ "BTCUSDT")], none) ∧
    samplePosition.state = PositionState.OPEN ∧
    samplePosition.legCloseStatusA = LegStatus.PENDING ∧
    samplePosition.legCloseStatusB = LegStatus.PENDING :=
  ⟨rfl, rfl, rfl, rfl⟩

/-- Claim C2: the claim says the unwind persists a `CLOSING` state change
before its first order submission.  The code's trace for every state and
symbol contains no persistence event and no order submission at all: the
persist-then-submit sequencing does not exist in the code. -/
theorem close_stub_no_persist_no_orders (σ : Type) (st : σ) (symbol : String) :
    (closeHedgedPosition σ st symbol).2.1.filter isPersistRecord = [] ∧
    (closeHedgedPosition σ st symbol).2.1.filter isOrderSubmit = [] :=
  ⟨rfl, rfl⟩

/-- Claim C3: unwinding a position already `CLOSED` a second time performs
no venue calls, and no close order is ever issued toward the venue of a
leg already `CONFIRMED`; the underlying program state is unchanged. -/
theorem unwind_idempotent_closed (st : List HedgePosition) (p : HedgePosition)
    (_hstate : p.state = PositionState.CLOSED)
    (_hlegA : p.legCloseStatusA = LegStatus.CONFIRMED) :
    (closeHedgedPosition (List HedgePosition)
        (closeHedgedPosition (List HedgePosition) st p.symbol).1 p.symbol).2.1.filter
      isVenueCall = [] ∧
    (closeHedgedPosition (List HedgePosition) st p.symbol).2.1.filter
      (isOrderSubmitTo p.venueA) = [] ∧
    (closeHedgedPosition (List HedgePosition) st p.symbol).1 = st :=
  ⟨rfl, rfl, rfl⟩

/-- Claim C3, witness: the idempotence theorem applied to a concrete
closed position with both legs confirmed. -/
theorem unwind_idempotent_closed_witness :
    closedPosition.state = PositionState.CLOSED ∧
    closedPosition.legCloseStatusA = LegStatus.CONFIRMED ∧
    ((closeHedgedPosition (List HedgePosition)
        (closeHedgedPosition (List HedgePosition) [closedPosition] closedPosition.symbol).1
        closedPosition.symbol).2.1.filter isVenueCall = [] ∧
     (closeHedgedPosition (List HedgePosition) [closedPosition] closedPosition.symbol).2.1.filter
       (isOrderSubmitTo closedPosition.venueA) = [] ∧
     (closeHedgedPosition (List HedgePosition) [closedPosition] closedPosition.symbol).1 =
       [closedPosition]) :=
  ⟨rfl, rfl, unwind_idempotent_closed [closedPosition] closedPosition rfl rfl⟩

/-- Claim C4: the claim says the exit evaluation returns a time-exit
decision iff the elapsed time reaches the holding window.  The spec-side
rule fires on the concrete scenario (opened at 0, now 601, window 600),
but the code's tick computes no decision at all: its whole behavior is
one log line and a `None` return, with no inputs consulted. -/
theorem tick_no_time_exit_logic :
    specTimeExitFires 0 601 600 = true ∧ tick.2 = none ∧
    tick.1 = [Event.logInfo "Checking trades for exit conditions..."] :=
  ⟨by decide, rfl, rfl⟩

/-- Claim C5: the claim says a funding-flip exit fires exactly after two
consecutive flipped observations.  The spec-side debounce rule behaves
that way on the spec's own scenario (entry bias +1; two observations of
-1 fire; a flip then reversion does not), but the code's tick computes no
decision and holds no pending-flip state: it returns `None` always. -/
theorem tick_no_funding_flip_logic :
    specFundingFlipFires 1 (-1) (-1) = true ∧
    specFundingFlipFires 1 (-1) 1 = false ∧
    tick.2 = none :=
  ⟨by decide, by decide, rfl⟩

/-- Claim C6: for every outcome of the tick — including any exception it
raises — the loop iteration never propagates the error: control always
proceeds to the next iteration, and a raised exception is logged with the
source's `"Error in monitor tick: "` message. -/
theorem run_forever_catches_tick_errors (t : TickOutcome) :
    (runForeverIteration t).2 = LoopControl.next ∧
    (∀ evs msg, t = TickOutcome.raised evs msg →
      Event.logError ("Error in monitor tick: " ++ msg) ∈ (runForeverIteration t).1) := by
  constructor
  · cases t <;> rfl
  · intro evs msg ht
    subst ht
    simp [runForeverIteration]

/-- Claim C6, witness: the containment theorem applied to a tick that
raised a ledger error. -/
theorem run_forever_catches_tick_errors_witness :
    (runForeverIteration (TickOutcome.raised [] "LedgerIOError")).2 = LoopControl.next ∧
    Event.logError ("Error in monitor tick: " ++ "LedgerIOError") ∈
      (runForeverIteration (TickOutcome.raised [] "LedgerIOError")).1 :=
  ⟨(run_forever_catches_tick_errors (TickOutcome.raised [] "LedgerIOError")).1,
   (run_forever_catches_tick_errors (TickOutcome.raised [] "LedgerIOError")).2
     [] "LedgerIOError" rfl⟩

/-- Claim C7, counterexample: the claim says the inter-tick sleep is
taken from the configured `tickIntervalSeconds`.  With a configuration
whose `tickIntervalSeconds` is 30, the code still sleeps its hardcoded
literal 60: the sleep is a constant, not read from configuration. -/
theorem sleep_interval_not_from_configuration :
    ¬ runForeverSleepGiven ⟨30⟩ = (⟨30⟩ : SpecConfiguration).tickIntervalSeconds := by
  decide

/-- Claim C7, amended: between consecutive ticks the loop always ends its
iteration with a sleep of the hardcoded constant 60 seconds, regardless
of the tick's outcome or how much work the tick did (fixed-delay: the
full sleep follows the cycle, never shortened by it). -/
theorem run_forever_fixed_delay (t : TickOutcome) :
    (∃ evs, (runForeverIteration t).1 = evs ++ [Event.sleepFor runForeverSleepSeconds]) ∧
    runForeverSleepSeconds = 60 := by
  refine ⟨?_, rfl⟩
  cases t with
  | ok evs => exact ⟨evs, rfl⟩
  | raised evs msg =>
      exact ⟨evs ++ [Event.logError ("Error in monitor tick: " ++ msg)], by
        simp [runForeverIteration]⟩

/-- Claim C8: ledger round-trip — saving a position and then loading the
ledger yields, under the position's unique identifier, a record equal in
all fields to the one saved. -/
theorem ledger_round_trip (l : List HedgePosition) (p : HedgePosition) :
    lookupLedger (loadLedger (saveLedger l p)) p.symbol = some p := by
  induction l with
  | nil => simp [saveLedger, loadLedger, lookupLedger]
  | cons q rest ih =>
      unfold saveLedger
      by_cases h : q.symbol == p.symbol
      · simp [loadLedger, lookupLedger, h]
      · simp only [h, Bool.false_eq_true, if_false]
        simpa [loadLedger, lookupLedger, List.find?, h] using ih

/-- Claim C9: for every ambient state and symbol,
`Exchange.close_hedged_position` returns `None`, submits no orders to any
venue, leaves the state unchanged, and emits exactly one info log line. -/
theorem close_hedged_position_is_noop (σ : Type) (st : σ) (symbol : String) :
    closeHedgedPosition σ st symbol =
      (st, [Event.logInfo ("Executing exit for " ++ symbol)], none) ∧
    (closeHedgedPosition σ st symbol).2.1.filter isOrderSubmit = [] ∧
    (closeHedgedPosition σ st symbol).1 = st ∧
    (closeHedgedPosition σ st symbol).2.2 = none :=
  ⟨rfl, rfl, rfl, rfl⟩

/-- Claim C10: in an iteration of the monitor loop running the actual
tick, no file is read, `close_hedged_position` is never invoked, and no
exit decision is produced. -/
theorem monitor_iteration_no_reads_no_close :
    runForeverIterationActual.1.filter isReadFile = [] ∧
    runForeverIterationActual.1.filter isInvokeClose = [] ∧
    tick.2 = none :=
  ⟨rfl, rfl, rfl⟩

end FundingArbBot
